import Mathlib

/-!
Shallow embedding of the gesture-recognition smoothing pipeline of the
sign-lang repository: the `SignLanguageDetector` class (sliding landmark
window, throttled detection, zero-padded classifier input, disposal) and
the `SignLanguageProvider` recognition session (display smoothing,
confidence decay, bounded deduplicated history, start/stop).

The embedding follows the latest revision of the source (the MediaPipe
detector and the provider with the revised thresholds): throttle interval
200 ms, minimum buffer fill 5 frames, detector acceptance threshold 0.5,
display threshold 0.6, history-admission threshold 0.75, re-admission gap
1500 ms, history bound 20 entries, decay step 0.08, clear threshold 0.4,
window capacity 30 frames of 42 coordinates.

External collaborators (the MediaPipe hand extractor and the TensorFlow
classifier) are passed in as parameters: extraction is an
`Except Unit (Option Frame)` (error = the send call threw, `none` = no
hand landmarks in the frame, `some f` = the landmark frame delivered to
the results callback), and classification is a function from the prepared
input sequence to `Except Unit (List ℚ)` (the raw probability vector, or
an error if prediction threw). Machine floats are modelled as rationals.
-/

namespace SignLang

/-- One frame of extracted hand landmarks: 21 points × (x, y) = 42 numbers. -/
abbrev Frame := List ℚ

/-- Result of a successful gesture detection (`DetectionResult` in the source). -/
structure DetectionResult where
  gesture : String
  confidence : ℚ
  deriving DecidableEq

/-- Label map of the detector: `{0: 'hello', 1: 'thankyou'}`. -/
def labelMap : Nat → String
  | 0 => "hello"
  | 1 => "thankyou"
  | _ => ""

/-- `maxSequenceLength` field of `SignLanguageDetector`: window capacity W. -/
def maxSequenceLength : Nat := 30

/-- `landmarkCount` field of `SignLanguageDetector`: 21 landmarks × 2. -/
def landmarkCount : Nat := 42

/-- State of a `SignLanguageDetector` instance. `model` and `hands` record
whether the corresponding handle is non-null. -/
structure DetectorState where
  model : Bool
  hands : Bool
  isProcessing : Bool
  isMediaPipeReady : Bool
  landmarkSequence : List Frame
  lastDetectionTime : Int
  deriving DecidableEq

/-- Field initializers of `SignLanguageDetector`: the state of a freshly
constructed detector on which `initialize` has not completed. -/
def initialDetectorState : DetectorState :=
  { model := false
    hands := false
    isProcessing := false
    isMediaPipeReady := false
    landmarkSequence := []
    lastDetectionTime := 0 }

/-- The append-and-evict step of `onHandsResults`: push the landmark array,
then `shift()` the oldest frame out if the window exceeds capacity. -/
def pushFrame (seq : List Frame) (f : Frame) : List Frame :=
  let seq2 := seq ++ [f]
  if seq2.length > maxSequenceLength then seq2.tail else seq2

/-- JavaScript `Array.slice(-n)`: the suffix of the most recent
`min n l.length` elements. -/
def sliceLast (n : Nat) (l : List α) : List α :=
  l.drop (l.length - n)

/-- `prepareInputSequence`: take the last `maxSequenceLength` frames and
left-pad with all-zero rows of length `landmarkCount` up to exactly
`maxSequenceLength` rows. -/
def prepareInputSequence (landmarkSequence : List Frame) : List Frame :=
  let recentFrames := sliceLast maxSequenceLength landmarkSequence
  let paddingNeeded := maxSequenceLength - recentFrames.length
  List.replicate paddingNeeded (List.replicate landmarkCount (0 : ℚ)) ++ recentFrames

/-- `Math.max(...predictionData)` over the probability vector. -/
def listMax : List ℚ → ℚ
  | [] => 0
  | x :: xs => xs.foldl max x

/-- `detectGesture`: gate on the busy flag and readiness, throttle to one
attempt per 200 ms, run the extractor (whose callback appends to the
window), require at least 5 buffered frames, classify the zero-padded
window, and return the top label when its score exceeds 0.5. Errors from
the extractor or classifier are caught: the busy flag is cleared and
`none` is returned. -/
def detectGesture (s : DetectorState) (now : Int)
    (extract : Except Unit (Option Frame))
    (classify : List Frame → Except Unit (List ℚ)) :
    Option DetectionResult × DetectorState :=
  if s.isProcessing || !s.model || !s.hands || !s.isMediaPipeReady then
    (none, s)
  else if now - s.lastDetectionTime < 200 then
    (none, s)
  else
    let s1 : DetectorState := { s with lastDetectionTime := now, isProcessing := true }
    match extract with
    | .error _ => (none, { s1 with isProcessing := false })
    | .ok r =>
      let s2 : DetectorState :=
        match r with
        | some f => { s1 with landmarkSequence := pushFrame s1.landmarkSequence f }
        | none => s1
      if s2.landmarkSequence.length < 5 then
        (none, { s2 with isProcessing := false })
      else
        match classify (prepareInputSequence s2.landmarkSequence) with
        | .error _ => (none, { s2 with isProcessing := false })
        | .ok predictionData =>
          let confidence := listMax predictionData
          let maxIndex := predictionData.indexOf confidence
          let s3 : DetectorState := { s2 with isProcessing := false }
          if confidence > 0.5 then
            (some { gesture := labelMap maxIndex, confidence := confidence }, s3)
          else
            (none, s3)

/-- `dispose`: null out the model, close and null out the hands extractor,
clear the window, reset the MediaPipe-ready flag. -/
def dispose (d : DetectorState) : DetectorState :=
  { d with model := false
           hands := false
           landmarkSequence := []
           isMediaPipeReady := false }

/-- A history entry (`Prediction` interface of the provider). -/
structure Prediction where
  gesture : String
  confidence : ℚ
  timestamp : Int
  deriving DecidableEq

/-- State owned by the `SignLanguageProvider` session. `detectorReady`
records whether `detectorRef.current` is non-null; `processing` is the
session-level busy ref. -/
structure SessionState where
  isDetecting : Bool
  currentPrediction : Option String
  confidence : ℚ
  predictionHistory : List Prediction
  modelLoaded : Bool
  detectorReady : Bool
  processing : Bool
  deriving DecidableEq

/-- `startDetection`: sets the active flag only when the model is loaded
and the detector exists. -/
def startDetection (s : SessionState) : SessionState :=
  if s.modelLoaded && s.detectorReady then { s with isDetecting := true } else s

/-- `stopDetection`: clears the active flag, the displayed prediction and
confidence, and the session busy ref. -/
def stopDetection (s : SessionState) : SessionState :=
  { s with isDetecting := false
           currentPrediction := none
           confidence := 0
           processing := false }

/-- The functional updater passed to `setPredictionHistory`: reject a new
prediction duplicating the last entry's label within 1500 ms, otherwise
append and keep only the last 20 entries. -/
def updateHistory (prev : List Prediction) (newPrediction : Prediction) :
    List Prediction :=
  match prev.getLast? with
  | some lastPrediction =>
    if lastPrediction.gesture = newPrediction.gesture ∧
        newPrediction.timestamp - lastPrediction.timestamp < 1500 then
      prev
    else
      sliceLast 20 (prev ++ [newPrediction])
  | none => sliceLast 20 (prev ++ [newPrediction])

/-- The decay branch of `processFrame`: reduce the displayed confidence by
0.08 (floored at 0) and clear the displayed label once it drops
below 0.4. -/
def decayStep (s : SessionState) : SessionState :=
  let newConfidence := max 0 (s.confidence - 0.08)
  { s with confidence := newConfidence
           currentPrediction :=
             if newConfidence < 0.4 then none else s.currentPrediction }

/-- `processFrame` of the provider, given the detector's result for this
frame (`Except.error` models `detectGesture` rejecting): no-op unless the
detector exists, detection is active, the session busy ref is clear and
the model is loaded; on a result above the 0.6 display threshold update
the displayed prediction, and additionally admit it to history above 0.75;
otherwise decay. Errors are caught (the busy ref is cleared and nothing
else changes). -/
def processFrame (s : SessionState) (result : Except Unit (Option DetectionResult))
    (now : Int) : SessionState :=
  if !s.detectorReady || !s.isDetecting || s.processing || !s.modelLoaded then s
  else
    match result with
    | .error _ => s
    | .ok r =>
      match r with
      | some res =>
        if res.confidence > 0.6 then
          let s1 : SessionState :=
            { s with currentPrediction := some res.gesture, confidence := res.confidence }
          if res.confidence > 0.75 then
            { s1 with predictionHistory :=
                (updateHistory s.predictionHistory ⟨res.gesture, res.confidence, now⟩) }
          else s1
        else decayStep s
      | none => decayStep s

/-- `clearHistory`: empties the history only. -/
def clearHistory (s : SessionState) : SessionState :=
  { s with predictionHistory := [] }

/-- Combined application state: the provider session plus the detector it
owns through `detectorRef`. -/
structure AppState where
  session : SessionState
  detector : DetectorState
  deriving DecidableEq

/-- `stopDetection` at the application level: the callback touches only
session state (it never reaches into `detectorRef.current`). -/
def stopApp (a : AppState) : AppState :=
  { a with session := stopDetection a.session }

/-- `startDetection` at the application level: the callback touches only
session state. -/
def startApp (a : AppState) : AppState :=
  { a with session := startDetection a.session }

/-- The history-admission rule as the specification states it: admit when
the history is empty, or the label differs from the last entry, or the gap
since the last entry is at least the re-admission interval. Stated from
the spec's words, to be compared against `updateHistory`. -/
def historyAdmits (hist : List Prediction) (p : Prediction) : Bool :=
  match hist.getLast? with
  | none => true
  | some lastP => lastP.gesture ≠ p.gesture ∨ p.timestamp - lastP.timestamp ≥ 1500

/-- A concrete landmark frame: 42 coordinates, all 0.5. -/
def cexFrame : Frame := List.replicate 42 (0.5 : ℚ)

/-- A concrete classifier stub returning an empty probability vector. -/
def cexClassify : List Frame → Except Unit (List ℚ) := fun _ => Except.ok []

/-- A ready, idle detector with an empty window. -/
def cexDetectorState : DetectorState :=
  { model := true
    hands := true
    isProcessing := false
    isMediaPipeReady := true
    landmarkSequence := []
    lastDetectionTime := 0 }

/-- A ready detector whose busy flag is set. -/
def busyDetectorState : DetectorState :=
  { cexDetectorState with isProcessing := true }

/-- A ready, idle detector with five buffered frames. -/
def readyDetector : DetectorState :=
  { cexDetectorState with landmarkSequence := List.replicate 5 cexFrame }

/-- A concrete active session with empty history. -/
def witnessSession : SessionState :=
  { isDetecting := true
    currentPrediction := none
    confidence := 0
    predictionHistory := []
    modelLoaded := true
    detectorReady := true
    processing := false }

/-- A concrete active session mid-decay: displayed label with confidence 0.42. -/
def decaySession : SessionState :=
  { witnessSession with currentPrediction := some "hello", confidence := 0.42 }

/-- A concrete inactive session holding a displayed prediction and history. -/
def inactiveSession : SessionState :=
  { witnessSession with
      isDetecting := false
      currentPrediction := some "hello"
      confidence := 0.8
      predictionHistory := [⟨"hello", 0.8, 100⟩] }

/-- A concrete application state: active session plus loaded detector. -/
def appW : AppState :=
  { session := witnessSession, detector := readyDetector }

/-- Helper: a single push equals appending then dropping the overflow. -/
theorem pushFrame_eq_drop (seq : List Frame) (f : Frame)
    (h : seq.length ≤ maxSequenceLength) :
    pushFrame seq f = (seq ++ [f]).drop (seq.length + 1 - maxSequenceLength) := by
  unfold pushFrame
  by_cases hgt : seq.length + 1 > maxSequenceLength
  · have h30 : seq.length = maxSequenceLength := by omega
    have hidx : seq.length + 1 - maxSequenceLength = 1 := by omega
    simp only [List.length_append, List.length_cons, List.length_nil, Nat.zero_add,
      hidx, if_pos (by omega : seq.length + 1 > maxSequenceLength)]
    exact (List.drop_one (seq ++ [f])).symm
  · have hidx : seq.length + 1 - maxSequenceLength = 0 := by omega
    simp only [List.length_append, List.length_cons, List.length_nil, Nat.zero_add,
      hidx, List.drop_zero]
    rw [if_neg (by omega)]

/-- Helper: length of a single push. -/
theorem pushFrame_length (seq : List Frame) (f : Frame)
    (h : seq.length ≤ maxSequenceLength) :
    (pushFrame seq f).length = min (seq.length + 1) maxSequenceLength := by
  rw [pushFrame_eq_drop seq f h]
  simp only [List.length_drop, List.length_append, List.length_cons, List.length_nil]
  omega

/-- Helper: folding pushes over a window keeps exactly the most recent
`maxSequenceLength` elements of the combined stream, in order. -/
theorem foldl_pushFrame (fs : List Frame) :
    ∀ seq : List Frame, seq.length ≤ maxSequenceLength →
      fs.foldl pushFrame seq =
        (seq ++ fs).drop (seq.length + fs.length - maxSequenceLength) := by
  induction fs with
  | nil =>
    intro seq h
    simp [Nat.sub_eq_zero_of_le h]
  | cons f rest ih =>
    intro seq h
    rw [List.foldl_cons]
    have hlen : (pushFrame seq f).length = min (seq.length + 1) maxSequenceLength :=
      pushFrame_length seq f h
    rw [ih (pushFrame seq f) (by omega)]
    rw [pushFrame_eq_drop seq f h]
    rw [← List.drop_append_of_le_length
      (by simp only [List.length_append, List.length_cons, List.length_nil]; omega :
        seq.length + 1 - maxSequenceLength ≤ (seq ++ [f]).length)]
    rw [List.drop_drop]
    have harr : (seq ++ [f]) ++ rest = seq ++ f :: rest := by
      rw [List.append_assoc]; rfl
    rw [harr]
    congr 1
    simp only [List.length_drop, List.length_append, List.length_cons,
      List.length_nil]
    omega

/-- C1: the landmark sliding window, fed any stream of appended frames
starting from the empty window, always equals the suffix of the most
recent `maxSequenceLength` frames in original order (so it never exceeds
W = 30 entries, and after W + k appends exactly the most recent W remain,
oldest first). -/
theorem landmarkWindow_sliding (fs : List Frame) :
    fs.foldl pushFrame [] = fs.drop (fs.length - maxSequenceLength) ∧
    (fs.foldl pushFrame []).length ≤ maxSequenceLength ∧
    (maxSequenceLength ≤ fs.length →
      (fs.foldl pushFrame []).length = maxSequenceLength) := by
  have h := foldl_pushFrame fs [] (by simp [maxSequenceLength])
  simp only [List.nil_append, List.length_nil, Nat.zero_add] at h
  refine ⟨h, ?_, fun hge => ?_⟩
  · rw [h]; simp only [List.length_drop]; omega
  · rw [h]; simp only [List.length_drop]; omega

/-- Witness for C1 at a concrete stream of 31 appends. -/
theorem landmarkWindow_sliding_witness :
    ((List.replicate 31 (List.replicate 42 (0 : ℚ))).foldl pushFrame []).length =
      maxSequenceLength :=
  (landmarkWindow_sliding (List.replicate 31 (List.replicate 42 (0 : ℚ)))).2.2
    (by simp [maxSequenceLength])

/-- C2: for a window of n ≤ W buffered frames, the prepared classifier
input is exactly W rows: W − n all-zero rows of length 42 followed by the
n buffered frames in their original order. -/
theorem prepareInputSequence_spec (seq : List Frame)
    (h : seq.length ≤ maxSequenceLength) :
    prepareInputSequence seq =
      List.replicate (maxSequenceLength - seq.length)
        (List.replicate landmarkCount (0 : ℚ)) ++ seq ∧
    (prepareInputSequence seq).length = maxSequenceLength := by
  have hs : sliceLast maxSequenceLength seq = seq := by
    simp [sliceLast, Nat.sub_eq_zero_of_le h]
  constructor
  · simp [prepareInputSequence, hs]
  · simp only [prepareInputSequence, hs, List.length_append, List.length_replicate]
    omega

/-- Witness for C2 at a concrete single-frame window. -/
theorem prepareInputSequence_witness :
    prepareInputSequence [List.replicate 42 (1 : ℚ)] =
      List.replicate (maxSequenceLength - 1)
        (List.replicate landmarkCount (0 : ℚ)) ++ [List.replicate 42 (1 : ℚ)] ∧
    (prepareInputSequence [List.replicate 42 (1 : ℚ)]).length = maxSequenceLength := by
  have h := prepareInputSequence_spec [List.replicate 42 (1 : ℚ)]
    (by simp [maxSequenceLength])
  simpa using h

/-- C3 (amended): detectGesture returns none with the detector state fully
unchanged when the busy flag is set or the model, hands instance or
MediaPipe-ready flag is missing, and likewise when the elapsed time since
the last non-skipped attempt is under the 200 ms throttle; when those
gates pass but fewer than 5 frames are buffered after the frame is
processed, it still returns none, but with side effects: the throttle
timestamp is set to now and a detected landmark frame is appended to the
window. -/
theorem detectGesture_skips (s : DetectorState) (now : Int)
    (extract : Except Unit (Option Frame))
    (classify : List Frame → Except Unit (List ℚ)) :
    ((s.isProcessing = true ∨ s.model = false ∨ s.hands = false ∨
        s.isMediaPipeReady = false) →
      detectGesture s now extract classify = (none, s)) ∧
    (now - s.lastDetectionTime < 200 →
      detectGesture s now extract classify = (none, s)) ∧
    (s.isProcessing = false → s.model = true → s.hands = true →
      s.isMediaPipeReady = true → 200 ≤ now - s.lastDetectionTime →
      (∀ f, (pushFrame s.landmarkSequence f).length < 5 →
        detectGesture s now (Except.ok (some f)) classify =
          (none, { s with
                    lastDetectionTime := now
                    isProcessing := false
                    landmarkSequence := (pushFrame s.landmarkSequence f) })) ∧
      (s.landmarkSequence.length < 5 →
        detectGesture s now (Except.ok none) classify =
          (none, { s with lastDetectionTime := now, isProcessing := false }))) := by
  refine ⟨fun hgate => ?_, fun hthr => ?_, fun hb hm hh hr ht => ⟨fun f hf => ?_, fun hn => ?_⟩⟩
  · rcases hgate with h | h | h | h <;> simp [detectGesture, h]
  · by_cases hgate : (s.isProcessing || !s.model || !s.hands || !s.isMediaPipeReady) = true
    · simp [detectGesture, hgate]
    · simp [detectGesture, hgate, hthr]
  · simp [detectGesture, hb, hm, hh, hr, not_lt.mpr ht, hf]
  · have hf : s.landmarkSequence.length < 5 := hn
    simp [detectGesture, hb, hm, hh, hr, not_lt.mpr ht, hf]

/-- Witness for the C3 amendment: on a ready, idle, unthrottled detector
with an empty window, a detected frame yields none but updates the
timestamp and the window. -/
theorem detectGesture_skips_witness :
    detectGesture cexDetectorState 1000 (Except.ok (some cexFrame)) cexClassify =
      (none, { cexDetectorState with
                lastDetectionTime := 1000
                isProcessing := false
                landmarkSequence := (pushFrame cexDetectorState.landmarkSequence cexFrame) }) :=
  ((detectGesture_skips cexDetectorState 1000 (Except.ok (some cexFrame))
      cexClassify).2.2 rfl rfl rfl rfl (by decide)).1 cexFrame (by decide)

/-- Counterexample to C3 as stated: on a ready, idle, unthrottled detector
with fewer than 5 buffered frames, detectGesture returns none, yet the
detector state is changed (the claim says the skip leaves the state,
window and throttle timestamp included, unchanged). -/
theorem detectGesture_minfill_cex :
    (detectGesture cexDetectorState 1000 (Except.ok (some cexFrame)) cexClassify).1 = none ∧
    cexDetectorState.isProcessing = false ∧
    cexDetectorState.model = true ∧
    cexDetectorState.hands = true ∧
    cexDetectorState.isMediaPipeReady = true ∧
    cexDetectorState.landmarkSequence.length < 5 ∧
    200 ≤ (1000 : Int) - cexDetectorState.lastDetectionTime ∧
    (detectGesture cexDetectorState 1000 (Except.ok (some cexFrame)) cexClassify).2 ≠
      cexDetectorState := by
  decide

/-- Helper: the truncation keeps at most n entries. -/
theorem sliceLast_length_le (n : Nat) (l : List α) : (sliceLast n l).length ≤ n := by
  simp only [sliceLast, List.length_drop]
  omega

/-- Helper: the source's history updater agrees with the spec's admission
rule: append-and-truncate exactly when the rule admits, otherwise leave
the history alone. -/
theorem updateHistory_eq_spec (prev : List Prediction) (p : Prediction) :
    updateHistory prev p =
      if historyAdmits prev p then sliceLast 20 (prev ++ [p]) else prev := by
  unfold updateHistory historyAdmits
  cases h : prev.getLast? with
  | none => simp
  | some lastP =>
    by_cases hgest : lastP.gesture = p.gesture
    · by_cases htime : p.timestamp - lastP.timestamp < 1500
      · simp [hgest, htime, not_le.mpr htime]
      · simp [hgest, htime, not_lt.mp htime]
    · simp [hgest]

/-- C4: given an active, ready, non-busy session, a detector result is
appended to the history exactly when its confidence exceeds the 0.75
admission threshold and the admission rule accepts it (history empty, or
different label than the last entry, or at least 1500 ms since the last
entry); an admitted entry is appended at the back and the history is then
truncated to its most recent 20 entries, so its length never exceeds 20. -/
theorem processFrame_history (s : SessionState) (res : DetectionResult) (now : Int)
    (hd : s.detectorReady = true) (hi : s.isDetecting = true)
    (hp : s.processing = false) (hm : s.modelLoaded = true) :
    ((processFrame s (Except.ok (some res)) now).predictionHistory =
      if res.confidence > 0.75 ∧
          historyAdmits s.predictionHistory ⟨res.gesture, res.confidence, now⟩ = true
      then sliceLast 20 (s.predictionHistory ++ [⟨res.gesture, res.confidence, now⟩])
      else s.predictionHistory) ∧
    (∀ result, s.predictionHistory.length ≤ 20 →
      (processFrame s result now).predictionHistory.length ≤ 20) := by
  have hgate : (!s.detectorReady || !s.isDetecting || s.processing || !s.modelLoaded) = false := by
    simp [hd, hi, hp, hm]
  constructor
  · by_cases h75 : res.confidence > 0.75
    · have h6 : res.confidence > 0.6 := lt_trans (by norm_num) h75
      by_cases hadm :
          historyAdmits s.predictionHistory ⟨res.gesture, res.confidence, now⟩ = true
      · simp [processFrame, hgate, h6, h75, updateHistory_eq_spec, hadm]
      · simp [processFrame, hgate, h6, h75, updateHistory_eq_spec, hadm]
    · by_cases h6 : res.confidence > 0.6
      · simp [processFrame, hgate, h6, h75]
      · simp [processFrame, hgate, h6, h75, decayStep]
  · intro result hlen
    rcases result with e | r
    · simpa [processFrame, hgate] using hlen
    · rcases r with _ | res2
      · simpa [processFrame, hgate, decayStep] using hlen
      · by_cases h6 : res2.confidence > 0.6
        · by_cases h75 : res2.confidence > 0.75
          · by_cases hadm : historyAdmits s.predictionHistory
                ⟨res2.gesture, res2.confidence, now⟩ = true
            · simp only [processFrame, hgate, Bool.false_eq_true, if_false,
                if_pos h6, if_pos h75, updateHistory_eq_spec, hadm, if_true]
              exact sliceLast_length_le 20 _
            · simp only [processFrame, hgate, Bool.false_eq_true, if_false,
                if_pos h6, if_pos h75, updateHistory_eq_spec, hadm, if_false]
              exact hlen
          · simpa [processFrame, hgate, h6, h75] using hlen
        · simpa [processFrame, hgate, h6, decayStep] using hlen

/-- Witness for C4: a high-confidence first prediction lands in the
empty history. -/
theorem processFrame_history_witness :
    (processFrame witnessSession (Except.ok (some ⟨"hello", 0.9⟩)) 0).predictionHistory =
      [⟨"hello", 0.9, 0⟩] := by
  have h := (processFrame_history witnessSession ⟨"hello", 0.9⟩ 0 rfl rfl rfl rfl).1
  rw [h]
  have hcond : ((⟨"hello", 0.9⟩ : DetectionResult).confidence > 0.75 ∧
      historyAdmits witnessSession.predictionHistory ⟨"hello", 0.9, 0⟩ = true) :=
    ⟨by show (0.9 : ℚ) > 0.75; norm_num, rfl⟩
  rw [if_pos hcond]
  rfl

/-- C5: given an active, ready, non-busy session, a frame with no result
(or a result at or below the 0.6 display threshold) decays the displayed
confidence by exactly 0.08, floored at 0 — hence non-increasing from any
non-negative value — leaves the history alone, keeps the confidence at the
decayed value, and clears the displayed label exactly when the decayed
confidence falls below the 0.4 clear threshold. -/
theorem processFrame_decay (s : SessionState)
    (result : Except Unit (Option DetectionResult)) (now : Int)
    (hd : s.detectorReady = true) (hi : s.isDetecting = true)
    (hp : s.processing = false) (hm : s.modelLoaded = true)
    (hres : result = Except.ok none ∨
      ∃ res, result = Except.ok (some res) ∧ res.confidence ≤ 0.6) :
    (processFrame s result now).confidence = max 0 (s.confidence - 0.08) ∧
    0 ≤ (processFrame s result now).confidence ∧
    (0 ≤ s.confidence → (processFrame s result now).confidence ≤ s.confidence) ∧
    (processFrame s result now).currentPrediction =
      (if (processFrame s result now).confidence < 0.4 then none
       else s.currentPrediction) ∧
    (processFrame s result now).predictionHistory = s.predictionHistory := by
  have hgate : (!s.detectorReady || !s.isDetecting || s.processing || !s.modelLoaded) = false := by
    simp [hd, hi, hp, hm]
  have hdec : processFrame s result now = decayStep s := by
    rcases hres with h | ⟨res, h, hle⟩
    · simp [processFrame, hgate, h]
    · simp [processFrame, hgate, h, not_lt.mpr hle]
  rw [hdec]
  refine ⟨rfl, le_max_left 0 _, fun h0 => ?_, rfl, rfl⟩
  exact max_le h0 (by linarith)

/-- Witness for C5: decaying from 0.42 gives 0.34 and clears the label. -/
theorem processFrame_decay_witness :
    (processFrame decaySession (Except.ok none) 0).confidence = 0.34 ∧
    (processFrame decaySession (Except.ok none) 0).currentPrediction = none := by
  obtain ⟨h1, -, -, h4, -⟩ :=
    processFrame_decay decaySession (Except.ok none) 0 rfl rfl rfl rfl (Or.inl rfl)
  have hc : decaySession.confidence = 0.42 := rfl
  have hmax : max (0 : ℚ) (0.42 - 0.08) = 0.34 := by
    rw [max_eq_right (by norm_num)]
    norm_num
  have h1n : (processFrame decaySession (Except.ok none) 0).confidence = 0.34 := by
    rw [h1, hc, hmax]
  refine ⟨h1n, ?_⟩
  rw [h4, h1n, if_pos (by norm_num : (0.34 : ℚ) < 0.4)]

/-- C6: while the session's active flag is false, any sequence of
processFrame calls — whatever the detector results and timestamps — leaves
the whole session state (displayed label, confidence, history included)
unchanged. -/
theorem processFrame_inactive
    (inputs : List (Except Unit (Option DetectionResult) × Int))
    (s : SessionState) (h : s.isDetecting = false) :
    inputs.foldl (fun st p => processFrame st p.1 p.2) s = s := by
  induction inputs with
  | nil => rfl
  | cons i rest ih =>
    rw [List.foldl_cons]
    have hstep : processFrame s i.1 i.2 = s := by
      simp [processFrame, h]
    rw [hstep]
    exact ih

/-- Witness for C6: two concrete frames against a concrete inactive
session change nothing. -/
theorem processFrame_inactive_witness :
    [((Except.ok (some ⟨"hello", 0.9⟩) : Except Unit (Option DetectionResult)), (0 : Int)),
     (Except.ok none, 300)].foldl
      (fun st p => processFrame st p.1 p.2) inactiveSession = inactiveSession :=
  processFrame_inactive _ inactiveSession rfl

/-- C7: on a ready, idle, unthrottled detector, a throwing extractor or a
throwing classifier is caught: detectGesture clears the busy flag and
returns none (no exception reaches the caller), and the session handles
the resulting none exactly as a no-result frame. -/
theorem detectGesture_error_handling (s : DetectorState) (now : Int)
    (classify : List Frame → Except Unit (List ℚ)) (sess : SessionState) (t : Int)
    (hb : s.isProcessing = false) (hm : s.model = true) (hh : s.hands = true)
    (hr : s.isMediaPipeReady = true) (ht : 200 ≤ now - s.lastDetectionTime) :
    detectGesture s now (Except.error ()) classify =
      (none, { s with lastDetectionTime := now, isProcessing := false }) ∧
    (∀ f, 5 ≤ (pushFrame s.landmarkSequence f).length →
      detectGesture s now (Except.ok (some f))
          (fun _ => (Except.error () : Except Unit (List ℚ))) =
        (none, { s with
                  lastDetectionTime := now
                  isProcessing := false
                  landmarkSequence := (pushFrame s.landmarkSequence f) })) ∧
    processFrame sess
        (Except.ok (detectGesture s now (Except.error ()) classify).1) t =
      processFrame sess (Except.ok none) t := by
  have h1 : detectGesture s now (Except.error ()) classify =
      (none, { s with lastDetectionTime := now, isProcessing := false }) := by
    simp [detectGesture, hb, hm, hh, hr, not_lt.mpr ht]
  refine ⟨h1, fun f hf => ?_, by rw [h1]⟩
  simp [detectGesture, hb, hm, hh, hr, not_lt.mpr ht, not_lt.mpr hf]

/-- Witness for C7 on a concrete ready detector with five buffered
frames. -/
theorem detectGesture_error_handling_witness :
    detectGesture readyDetector 1000 (Except.error ()) cexClassify =
      (none, { readyDetector with lastDetectionTime := 1000, isProcessing := false }) ∧
    detectGesture readyDetector 1000 (Except.ok (some cexFrame))
        (fun _ => (Except.error () : Except Unit (List ℚ))) =
      (none, { readyDetector with
                lastDetectionTime := 1000
                isProcessing := false
                landmarkSequence := (pushFrame readyDetector.landmarkSequence cexFrame) }) := by
  have h := detectGesture_error_handling readyDetector 1000 cexClassify
    witnessSession 0 rfl rfl rfl rfl (by decide)
  exact ⟨h.1, h.2.1 cexFrame (by decide)⟩

/-- C8: stopDetection clears the active flag, resets the displayed label
to none and the displayed confidence to 0, and leaves the prediction
history untouched. -/
theorem stopDetection_behavior (s : SessionState) :
    (stopDetection s).isDetecting = false ∧
    (stopDetection s).currentPrediction = none ∧
    (stopDetection s).confidence = 0 ∧
    (stopDetection s).predictionHistory = s.predictionHistory :=
  ⟨rfl, rfl, rfl, rfl⟩

/-- C9: dispose releases the model and hands handles, resets the
MediaPipe-ready flag and clears the landmark window; it is idempotent, and
it is safe on a detector whose initialization never completed (on the
initial state it is a no-op). -/
theorem dispose_idempotent_safe (d : DetectorState) :
    dispose (dispose d) = dispose d ∧
    (dispose d).model = false ∧
    (dispose d).hands = false ∧
    (dispose d).isMediaPipeReady = false ∧
    (dispose d).landmarkSequence = [] ∧
    dispose initialDetectorState = initialDetectorState :=
  ⟨rfl, rfl, rfl, rfl, rfl, rfl⟩

/-- C10: stopDetection followed by startDetection leaves the detector —
its landmark window included — untouched; a subsequent detectGesture that
passes the gates appends the newly captured frame to the window still
holding the frames accumulated before the stop (plain append while under
capacity), and its classification depends on the classifier only through
the input prepared from that mixed window. -/
theorem stop_preserves_window (a : AppState) (f : Frame) (now : Int)
    (classify c1 c2 : List Frame → Except Unit (List ℚ))
    (hb : a.detector.isProcessing = false) (hm : a.detector.model = true)
    (hh : a.detector.hands = true) (hr : a.detector.isMediaPipeReady = true)
    (ht : 200 ≤ now - a.detector.lastDetectionTime) :
    (startApp (stopApp a)).detector = a.detector ∧
    (detectGesture (startApp (stopApp a)).detector now (Except.ok (some f))
        classify).2.landmarkSequence = pushFrame a.detector.landmarkSequence f ∧
    (a.detector.landmarkSequence.length < maxSequenceLength →
      pushFrame a.detector.landmarkSequence f = a.detector.landmarkSequence ++ [f]) ∧
    (c1 (prepareInputSequence (pushFrame a.detector.landmarkSequence f)) =
        c2 (prepareInputSequence (pushFrame a.detector.landmarkSequence f)) →
      detectGesture a.detector now (Except.ok (some f)) c1 =
        detectGesture a.detector now (Except.ok (some f)) c2) := by
  have hdet : (startApp (stopApp a)).detector = a.detector := rfl
  refine ⟨hdet, ?_, fun hcap => ?_, fun hc => ?_⟩
  · rw [hdet]
    simp only [detectGesture, hb, hm, hh, hr, Bool.not_true, Bool.false_or,
      Bool.or_self, Bool.false_eq_true, if_false, not_lt.mpr ht]
    split
    · rfl
    · split
      · rfl
      · split <;> rfl
  · unfold pushFrame
    rw [if_neg]
    simp only [List.length_append, List.length_cons, List.length_nil]
    omega
  · simp only [detectGesture, hb, hm, hh, hr, Bool.not_true, Bool.false_or,
      Bool.or_self, Bool.false_eq_true, if_false, not_lt.mpr ht]
    rw [hc]

/-- Witness for C10 on a concrete app state with five pre-stop frames. -/
theorem stop_preserves_window_witness :
    (detectGesture (startApp (stopApp appW)).detector 1000 (Except.ok (some cexFrame))
        cexClassify).2.landmarkSequence = pushFrame readyDetector.landmarkSequence cexFrame ∧
    pushFrame readyDetector.landmarkSequence cexFrame =
      readyDetector.landmarkSequence ++ [cexFrame] := by
  have h := stop_preserves_window appW cexFrame 1000 cexClassify cexClassify cexClassify
    rfl rfl rfl rfl (by decide)
  exact ⟨h.2.1, h.2.2.1 (by decide)⟩

end SignLang
